import Mathlib

/-!
Verification of the realtime client library (RealtimeClient over a WebRTC
transport) against its natural-language specification.

The definitions below are a shallow embedding of the JavaScript sources
src/lib/client.js (class RealtimeClient) and src/lib/webrtc.js (class
RealtimeWebRTC).  JavaScript objects that travel on the wire are modelled by
the JSON value type JValue; the mutable fields of the two classes become
explicit state records, and every method becomes a state-passing function
returning the new state together with an Except value (Except.error models a
thrown exception, whose string is the error message built by the source).
Outbound network writes and event-bus dispatches are collected in traces so
that theorems can speak about what was sent and dispatched.
-/

set_option autoImplicit false

/-- JSON values (the payloads carried by wire events).  Numbers are modelled
as integers, which covers every numeric payload the claims exercise. -/
inductive JValue where
  | null
  | bool (b : Bool)
  | num (n : Int)
  | str (s : String)
  | arr (elems : List JValue)
  | obj (fields : List (String × JValue))
deriving Repr, Inhabited

/-- JavaScript truthiness of a JSON value (null, false, 0 and the empty
string are falsy; arrays and objects are always truthy). -/
def JValue.truthy : JValue → Bool
  | .null => false
  | .bool b => b
  | .num n => n != 0
  | .str s => s ≠ ""
  | .arr _ => true
  | .obj _ => true

/-- Property lookup on an object value: JavaScript o[k], where a missing key
or a non-object receiver yields undefined (modelled as none). -/
def JValue.get : JValue → String → Option JValue
  | .obj fields, k => fields.lookup k
  | _, _ => none

/-- Assign key k to value v in a JavaScript object field list: an existing
key is overwritten in place (keeping its position), a new key is appended. -/
def objSet (o : List (String × JValue)) (k : String) (v : JValue) :
    List (String × JValue) :=
  if o.any (fun p => p.1 = k) then
    o.map (fun p => if p.1 = k then (k, v) else p)
  else
    o ++ [(k, v)]

/-- Build a JavaScript object from a sequence of key/value assignments in
order (object-literal and spread semantics: later assignments to the same
key overwrite, first occurrence fixes the position). -/
def objOfEntries (entries : List (String × JValue)) : List (String × JValue) :=
  entries.foldl (fun o p => objSet o p.1 p.2) []

/-- The entries contributed by spreading a value into an object literal:
an object contributes its fields, null contributes nothing, an array
contributes its elements under numeric keys. -/
def spreadEntries : JValue → List (String × JValue)
  | .obj fields => fields
  | .arr elems => (elems.enum).map (fun p => (toString p.1, p.2))
  | _ => []

/-- JavaScript string coercion used when a value is interpolated into a
template literal (only the cases a wire event type can take). -/
def jsToString : JValue → String
  | .null => "null"
  | .bool b => if b then "true" else "false"
  | .num n => toString n
  | .str s => s
  | .arr _ => ""
  | .obj _ => "[object Object]"

/-- String escaping performed by JSON.stringify on string contents. -/
def jsonEscapeChar (c : Char) : String :=
  if c = '"' then "\\\""
  else if c = '\\' then "\\\\"
  else if c = '\n' then "\\n"
  else if c = '\r' then "\\r"
  else if c = '\t' then "\\t"
  else String.singleton c

/-- Escapes every character of a string for JSON output. -/
def jsonEscape (s : String) : String :=
  String.join (s.toList.map jsonEscapeChar)

mutual

/-- JSON.stringify on a JSON value. -/
def jsonStringify : JValue → String
  | .null => "null"
  | .bool b => if b then "true" else "false"
  | .num n => toString n
  | .str s => "\"" ++ jsonEscape s ++ "\""
  | .arr elems => "[" ++ jsonStringifyList elems ++ "]"
  | .obj fields => "\x7b" ++ jsonStringifyFields fields ++ "\x7d"

/-- Comma-separated serialization of array elements. -/
def jsonStringifyList : List JValue → String
  | [] => ""
  | [v] => jsonStringify v
  | v :: rest => jsonStringify v ++ "," ++ jsonStringifyList rest

/-- Comma-separated serialization of object fields. -/
def jsonStringifyFields : List (String × JValue) → String
  | [] => ""
  | [(k, v)] => "\"" ++ jsonEscape k ++ "\":" ++ jsonStringify v
  | (k, v) :: rest =>
      "\"" ++ jsonEscape k ++ "\":" ++ jsonStringify v ++ "," ++
        jsonStringifyFields rest

end

/-- Session configuration: the flat record held in RealtimeClient
this.sessionConfig (src/lib/client.js lines 23-35 give the shape and its
defaults).  Field values are typed as the defaults type them; temperature
is kept as a rational since its default is the non-integer 0.8. -/
structure SessionConfig where
  modalities : List String
  instructions : String
  voice : String
  input_audio_format : String
  output_audio_format : String
  input_audio_transcription : Option JValue
  turn_detection : Option JValue
  tools : List JValue
  tool_choice : String
  temperature : Rat
  max_response_output_tokens : Nat
deriving Repr, Inhabited

/-- this.defaultSessionConfig from the RealtimeClient constructor
(src/lib/client.js lines 23-35). -/
def defaultSessionConfig : SessionConfig :=
  { modalities := ["text", "audio"]
    instructions := ""
    voice := "verse"
    input_audio_format := "pcm16"
    output_audio_format := "pcm16"
    input_audio_transcription := none
    turn_detection := none
    tools := []
    tool_choice := "auto"
    temperature := (8 : Rat) / 10
    max_response_output_tokens := 4096 }

/-- The argument of RealtimeClient.updateSession: each destructured
parameter defaults to undefined (void 0), modelled as none.  A field that is
none was absent from the call. -/
structure SessionDelta where
  modalities : Option (List String) := none
  instructions : Option String := none
  voice : Option String := none
  input_audio_format : Option String := none
  output_audio_format : Option String := none
  input_audio_transcription : Option (Option JValue) := none
  turn_detection : Option (Option JValue) := none
  tools : Option (List JValue) := none
  tool_choice : Option String := none
  temperature : Option Rat := none
  max_response_output_tokens : Option Nat := none
deriving Repr, Inhabited

/-- The merge step of RealtimeClient.updateSession (src/lib/client.js lines
300-315): each guarded assignment writes the parameter into sessionConfig
exactly when it is not undefined. -/
def mergeSession (c : SessionConfig) (p : SessionDelta) : SessionConfig :=
  { modalities := p.modalities.getD c.modalities
    instructions := p.instructions.getD c.instructions
    voice := p.voice.getD c.voice
    input_audio_format := p.input_audio_format.getD c.input_audio_format
    output_audio_format := p.output_audio_format.getD c.output_audio_format
    input_audio_transcription :=
      p.input_audio_transcription.getD c.input_audio_transcription
    turn_detection := p.turn_detection.getD c.turn_detection
    tools := p.tools.getD c.tools
    tool_choice := p.tool_choice.getD c.tool_choice
    temperature := p.temperature.getD c.temperature
    max_response_output_tokens :=
      p.max_response_output_tokens.getD c.max_response_output_tokens }

/-- Names of the session-configuration fields, used to state per-field
frame properties uniformly. -/
inductive SField where
  | modalities | instructions | voice | input_audio_format
  | output_audio_format | input_audio_transcription | turn_detection
  | tools | tool_choice | temperature | max_response_output_tokens
deriving Repr, DecidableEq

/-- The value type carried by each session-configuration field. -/
def SField.type : SField → Type
  | .modalities => List String
  | .instructions => String
  | .voice => String
  | .input_audio_format => String
  | .output_audio_format => String
  | .input_audio_transcription => Option JValue
  | .turn_detection => Option JValue
  | .tools => List JValue
  | .tool_choice => String
  | .temperature => Rat
  | .max_response_output_tokens => Nat

/-- Projection of a session configuration at a named field. -/
def SessionConfig.field (c : SessionConfig) : (f : SField) → f.type
  | .modalities => c.modalities
  | .instructions => c.instructions
  | .voice => c.voice
  | .input_audio_format => c.input_audio_format
  | .output_audio_format => c.output_audio_format
  | .input_audio_transcription => c.input_audio_transcription
  | .turn_detection => c.turn_detection
  | .tools => c.tools
  | .tool_choice => c.tool_choice
  | .temperature => c.temperature
  | .max_response_output_tokens => c.max_response_output_tokens

/-- Projection of an updateSession argument at a named field (none when the
field was absent from the call). -/
def SessionDelta.field (p : SessionDelta) : (f : SField) → Option f.type
  | .modalities => p.modalities
  | .instructions => p.instructions
  | .voice => p.voice
  | .input_audio_format => p.input_audio_format
  | .output_audio_format => p.output_audio_format
  | .input_audio_transcription => p.input_audio_transcription
  | .turn_detection => p.turn_detection
  | .tools => p.tools
  | .tool_choice => p.tool_choice
  | .temperature => p.temperature
  | .max_response_output_tokens => p.max_response_output_tokens

/-- State of an RTCPeerConnection handle (only its connectionState field is
observed by the source). -/
structure PeerConnection where
  connectionState : String
deriving Repr, DecidableEq, Inhabited

/-- State of an RTCDataChannel handle (only its readyState field is
observed by the source). -/
structure DataChannel where
  readyState : String
deriving Repr, DecidableEq, Inhabited

/-- The mutable fields of class RealtimeWebRTC (src/lib/webrtc.js
constructor): the peer connection, the data channel, the captured
microphone stream (modelled as its list of track identifiers) and the
playback audio element (modelled as a flag). -/
structure RTCState where
  pc : Option PeerConnection
  dc : Option DataChannel
  audioStream : Option (List String)
  audioElement : Bool
deriving Repr, DecidableEq, Inhabited

/-- The freshly constructed RealtimeWebRTC state: all handles null. -/
def RTCState.init : RTCState :=
  { pc := none, dc := none, audioStream := none, audioElement := false }

/-- RealtimeWebRTC.isConnected: the peer connection reports connected and
the data channel reports open. -/
def rtcIsConnected (st : RTCState) : Bool :=
  (match st.pc with
    | some pc => pc.connectionState = "connected"
    | none => false) &&
  (match st.dc with
    | some dc => dc.readyState = "open"
    | none => false)

/-- RealtimeWebRTC.disconnect (src/lib/webrtc.js lines 550-572): stops and
drops the audio stream, releases the audio element, closes and nulls the
data channel and the peer connection.  Total: the source method cannot
throw. -/
def rtcDisconnect (st : RTCState) : RTCState :=
  let st := if st.audioStream.isSome then { st with audioStream := none } else st
  let st := if st.audioElement then { st with audioElement := false } else st
  let st := if st.dc.isSome then { st with dc := none } else st
  if st.pc.isSome then { st with pc := none } else st

/-- JavaScript typeof v !== 'object' (null and arrays are of type
'object'; strings, numbers and booleans are not). -/
def jsTypeofNotObject : JValue → Bool
  | .str _ => true
  | .num _ => true
  | .bool _ => true
  | _ => false

/-- The wire event constructed by RealtimeWebRTC.send: the object literal
with event_id and type fields followed by a spread of the caller data
(src/lib/webrtc.js lines 587-591).  The generated id is passed in, since
RealtimeUtils.generateId draws randomness. -/
def sendEventValue (eventName : String) (data : JValue) (eid : String) : JValue :=
  .obj (objOfEntries
    ([("event_id", .str eid), ("type", .str eventName)] ++ spreadEntries data))

/-- The observable outcome of a successful send: the event-bus dispatches
it performed, in order, and the complete messages written to the data
channel. -/
structure SendResult where
  dispatches : List (String × JValue)
  writes : List String
deriving Repr, Inhabited

/-- RealtimeWebRTC.send (src/lib/webrtc.js lines 580-602): fails
synchronously when not connected or when the payload is not of object
type; otherwise builds the wire event, dispatches it as client.<type> and
client.*, and writes its serialization to the data channel as one
message. -/
def rtcSend (st : RTCState) (eventName : String) (data : JValue)
    (eid : String) : Except String SendResult :=
  if ¬ rtcIsConnected st then
    .error "RealtimeWebRTC is not connected"
  else if jsTypeofNotObject data then
    .error "data must be an object"
  else
    let event := sendEventValue eventName data eid
    .ok { dispatches := [("client." ++ eventName, event), ("client.*", event)]
          writes := [jsonStringify event] }

/-- The event name a received message is dispatched under:
server.<message.type>, with JavaScript template-literal coercion of the
type field (an absent field interpolates as undefined). -/
def serverEventName (message : JValue) : String :=
  "server." ++
    (match message.get "type" with
      | some v => jsToString v
      | none => "undefined")

/-- The local error payload dispatched when an inbound frame fails to
parse (src/lib/webrtc.js lines 477-481). -/
def invalidMessagePayload (errMsg : String) : JValue :=
  .obj [("type", .str "invalid_message"),
        ("message", .str "Failed to parse message from server"),
        ("error", .str errMsg)]

/-- The dc.onmessage handler installed by RealtimeWebRTC.connect
(src/lib/webrtc.js lines 468-483).  Its input is the outcome of
JSON.parse on the received frame; it returns the transport state (which it
never modifies) together with the dispatches it performs. -/
def dcOnMessage (st : RTCState) (parsed : Except String JValue) :
    RTCState × List (String × JValue) :=
  match parsed with
  | .ok message =>
      (st, [(serverEventName message, message), ("server.*", message)])
  | .error errMsg =>
      (st, [("error", invalidMessagePayload errMsg)])

/-- The externally visible actions RealtimeWebRTC.connect performs, in
order, used to state what a failed attempt did and did not do. -/
inductive RTCAction where
  | createPeerConnection
  | getUserMedia
  | createDataChannel
  | createOffer
  | postOffer
deriving Repr, DecidableEq

/-- Outcome of the bounded connection-state poll at the end of
RealtimeWebRTC.connect: the state reaches connected with the channel open,
reaches failed, or the 10 s timer fires first. -/
inductive PollOutcome where
  | connected
  | failed
  | timeout
deriving Repr, DecidableEq

/-- The environment of one RealtimeWebRTC.connect attempt: the outcome of
getUserMedia, of the offer/answer HTTP POST, and of the connection-state
poll. -/
structure RTCConnectEnv where
  micResult : Except String (List String)
  postOk : Bool
  postStatus : Nat
  postStatusText : String
  poll : PollOutcome

/-- JavaScript s || dflt on strings (the empty string is falsy). -/
def jsOrDefault (s dflt : String) : String :=
  if s = "" then dflt else s

/-- The input-format allow-list of RealtimeWebRTC.connect (line 395). -/
def validInputFormats : List String := ["pcm16", "g711_ulaw", "g711_alaw"]

/-- The output-format allow-list of RealtimeWebRTC.connect (line 396). -/
def validOutputFormats : List String := ["pcm16", "g711_ulaw", "g711_alaw"]

/-- The voice allow-list of RealtimeWebRTC.connect (line 397). -/
def validVoices : List String :=
  ["alloy", "ash", "ballad", "coral", "echo", "sage", "shimmer", "verse"]

/-- The tail of RealtimeWebRTC.connect after the audio setup branch
(src/lib/webrtc.js lines 466-543): create the data channel, create and
post the offer, then poll until connected, failed, or timeout.  On every
failure the source throws or rejects without releasing any of the handles
acquired so far. -/
def rtcConnectTail (st : RTCState) (acts : List RTCAction)
    (env : RTCConnectEnv) : RTCState × List RTCAction × Except String Unit :=
  let st := { st with dc := some (⟨"connecting"⟩ : DataChannel) }
  let acts := acts ++ [RTCAction.createDataChannel, RTCAction.createOffer,
    RTCAction.postOffer]
  if ¬ env.postOk then
    (st, acts, .error ("Failed to connect: " ++ toString env.postStatus ++
      " " ++ env.postStatusText))
  else
    match env.poll with
    | .timeout => (st, acts, .error "Connection timeout")
    | .failed => ({ st with pc := some (⟨"failed"⟩ : PeerConnection) },
        acts, .error "Connection failed")
    | .connected =>
        let st := { st with pc := some (⟨"connected"⟩ : PeerConnection) }
        ({ st with dc := some (⟨"open"⟩ : DataChannel) }, acts, .ok ())

/-- RealtimeWebRTC.connect (src/lib/webrtc.js lines 377-544): fail fast if
already connected; create the peer connection; if audio is among the
session modalities, validate the effective audio formats and voice against
the allow-lists and then request microphone access; then proceed to the
data channel, offer/answer exchange and connection poll.  Returns the
resulting handle state, the trace of performed actions, and the
outcome. -/
def rtcConnect (st : RTCState) (cfg : SessionConfig) (env : RTCConnectEnv) :
    RTCState × List RTCAction × Except String Unit :=
  if rtcIsConnected st then
    (st, [], .error "Already connected")
  else
    let st := { st with pc := some (⟨"new"⟩ : PeerConnection) }
    let acts := [RTCAction.createPeerConnection]
    if cfg.modalities.contains "audio" then
      let inputFormat := jsOrDefault cfg.input_audio_format "pcm16"
      let outputFormat := jsOrDefault cfg.output_audio_format "pcm16"
      let voice := jsOrDefault cfg.voice "verse"
      if ¬ validInputFormats.contains inputFormat then
        (st, acts, .error ("Invalid input_audio_format: " ++ inputFormat))
      else if ¬ validOutputFormats.contains outputFormat then
        (st, acts, .error ("Invalid output_audio_format: " ++ outputFormat))
      else if ¬ validVoices.contains voice then
        (st, acts, .error ("Invalid voice: " ++ voice))
      else
        match env.micResult with
        | .error _ =>
            (st, acts ++ [RTCAction.getUserMedia],
              .error "Microphone access required for audio modality")
        | .ok tracks =>
            rtcConnectTail { st with audioStream := some tracks }
              (acts ++ [RTCAction.getUserMedia]) env
    else
      rtcConnectTail st acts env

/-- A tool handler: an asynchronous function from the parsed JSON
arguments to a JSON-serializable result, or a thrown failure carrying a
message. -/
def ToolHandler := JValue → Except String JValue

/-- A tool definition as passed to addTool: its name plus the remaining
definition fields, which the client stores but never inspects. -/
structure ToolDefinition where
  name : String
  rest : List (String × JValue) := []

/-- A Tool Registry entry: this.tools[name] = definition and handler
(src/lib/client.js line 269). -/
structure ToolEntry where
  definition : ToolDefinition
  handler : ToolHandler

/-- Modelled from the spec: conversation.js (class RealtimeConversation)
is not among the sources.  Per spec section 4.3 the Conversation Store
owns the item collection and the audio accumulator, and clear() empties
the item collection and resets the audio accumulator. -/
structure RealtimeConversation where
  items : List JValue
  queuedInputAudio : Option (List Int)
deriving Repr, Inhabited

/-- Modelled from the spec: clear() empties the item collection and
resets the audio accumulator (spec section 4.3). -/
def RealtimeConversation.clear (_c : RealtimeConversation) :
    RealtimeConversation :=
  { items := [], queuedInputAudio := none }

/-- An event handed to this.realtime.send by the client orchestrator
(src/lib/client.js): a full-session session.update, a
conversation.item.create carrying an item payload, or a
response.create. -/
inductive SentEvent where
  | sessionUpdate (session : SessionConfig)
  | conversationItemCreate (item : JValue)
  | responseCreate

/-- The event names registered on the transport bus by
RealtimeClient._addAPIEventHandlers (src/lib/client.js lines 66-177). -/
def apiHandlerEvents : List String :=
  ["client.*", "server.*", "server.session.created",
   "server.response.created", "server.response.output_item.added",
   "server.response.content_part.added",
   "server.input_audio_buffer.speech_started",
   "server.input_audio_buffer.speech_stopped",
   "server.conversation.item.created",
   "server.conversation.item.truncated",
   "server.conversation.item.deleted",
   "server.conversation.item.input_audio_transcription.completed",
   "server.response.audio_transcript.delta",
   "server.response.audio.delta", "server.response.text.delta",
   "server.response.function_call_arguments.delta",
   "server.response.output_item.done"]

/-- The mutable fields of a RealtimeClient constructed with the webrtc
transport: the session-created flag, the Tool Registry, the session
configuration, the input audio buffer, the Conversation Store, the
transport state, the handler patterns registered on the client bus by the
application and on the transport bus by _addAPIEventHandlers, the trace of
events handed to this.realtime.send, and the credential fields. -/
structure ClientState where
  sessionCreated : Bool
  tools : List (String × ToolEntry)
  sessionConfig : SessionConfig
  inputAudioBuffer : List Int
  conversation : RealtimeConversation
  rtc : RTCState
  appHandlers : List String
  apiHandlers : List String
  sent : List SentEvent
  ephemeralKey : Option JValue
  fetchEphemeralKeyUrl : Option String

/-- The state the RealtimeClient constructor produces for the webrtc
transport (src/lib/client.js lines 8-56, via _resetConfig): default
session configuration, empty registry, fresh transport, internal API
handlers installed. -/
def ClientState.fresh (ephemeralKey : Option JValue)
    (fetchUrl : Option String) : ClientState :=
  { sessionCreated := false
    tools := []
    sessionConfig := defaultSessionConfig
    inputAudioBuffer := []
    conversation := { items := [], queuedInputAudio := none }
    rtc := RTCState.init
    appHandlers := []
    apiHandlers := apiHandlerEvents
    sent := []
    ephemeralKey := ephemeralKey
    fetchEphemeralKeyUrl := fetchUrl }

/-- RealtimeClient.isConnected (src/lib/client.js lines 179-181):
delegates to the transport. -/
def clientIsConnected (st : ClientState) : Bool :=
  rtcIsConnected st.rtc

/-- RealtimeClient.updateSession (src/lib/client.js lines 287-323): the
sparse merge into sessionConfig followed, when connected, by sending the
full merged configuration to the peer as a session.update event. -/
def updateSession (st : ClientState) (p : SessionDelta) : ClientState :=
  let cfg := mergeSession st.sessionConfig p
  let st := { st with sessionConfig := cfg }
  if rtcIsConnected st.rtc then
    { st with sent := st.sent ++ [SentEvent.sessionUpdate cfg] }
  else
    st

/-- RealtimeClient.addTool (src/lib/client.js lines 256-272): requires a
non-empty name, a not-yet-registered name, and a callable handler (a
non-function handler argument is modelled as none); on success registers
the tool and calls updateSession() with no arguments. -/
def addTool (st : ClientState) (d : ToolDefinition)
    (h : Option ToolHandler) : ClientState × Except String ToolEntry :=
  if d.name = "" then
    (st, .error "Missing tool name in definition")
  else if (st.tools.lookup d.name).isSome then
    (st, .error ("Tool \"" ++ d.name ++ "\" already added. " ++
      "Please use .removeTool(\"" ++ d.name ++
      "\") before trying to add again."))
  else
    match h with
    | none => (st, .error ("Tool \"" ++ d.name ++
        "\" handler must be a function"))
    | some handler =>
        let entry : ToolEntry := ⟨d, handler⟩
        let st := { st with tools := st.tools ++ [(d.name, entry)] }
        (updateSession st {}, .ok entry)

/-- RealtimeClient.disconnect (src/lib/client.js lines 246-250): clears
the session-created flag, disconnects the transport only when it reports
connected, and clears the Conversation Store.  Total: the source method
cannot throw. -/
def clientDisconnect (st : ClientState) : ClientState :=
  let st := { st with sessionCreated := false }
  let st :=
    if rtcIsConnected st.rtc then { st with rtc := rtcDisconnect st.rtc }
    else st
  { st with conversation := st.conversation.clear }

/-- RealtimeClient._resetConfig (src/lib/client.js lines 58-64). -/
def resetConfig (st : ClientState) : ClientState :=
  { st with
    sessionCreated := false
    tools := []
    sessionConfig := defaultSessionConfig
    inputAudioBuffer := [] }

/-- RealtimeClient.reset (src/lib/client.js lines 183-190): disconnect,
clear the handlers of both buses, restore the default configuration and
empty registry, and re-install the internal API handlers. -/
def clientReset (st : ClientState) : ClientState :=
  let st := clientDisconnect st
  let st := { st with appHandlers := [] }
  let st := { st with apiHandlers := [] }
  let st := resetConfig st
  { st with apiHandlers := apiHandlerEvents }

/-- Outcome of the HTTP GET issued for credential resolution: a network
failure with a message, or a response with its ok flag, status, status
text and the outcome of parsing its JSON body. -/
inductive FetchOutcome where
  | netError (msg : String)
  | response (ok : Bool) (status : Nat) (statusText : String)
      (body : Except String JValue)

/-- The credential-resolution block of RealtimeClient.connect
(src/lib/client.js lines 204-218): one GET; a non-ok status, a body
parse failure, or a falsy ephemeral_key field each throw, and the
surrounding catch wraps every failure message in the
Failed-to-fetch-ephemeral-key prefix. -/
def fetchEphemeralKey (o : FetchOutcome) : Except String JValue :=
  let inner : Except String JValue :=
    match o with
    | .netError m => .error m
    | .response ok status statusText body =>
        if ¬ ok then
          .error ("Failed to fetch ephemeral key: " ++ toString status ++
            " " ++ statusText)
        else
          match body with
          | .error m => .error m
          | .ok data =>
              match data.get "ephemeral_key" with
              | some v =>
                  if v.truthy then .ok v
                  else .error "Response missing ephemeral_key field"
              | none => .error "Response missing ephemeral_key field"
  match inner with
  | .ok v => .ok v
  | .error m => .error ("Failed to fetch ephemeral key: " ++ m)

/-- The environment of one RealtimeClient.connect call: the outcome the
credential GET would have, and the environment of the transport connect
attempt. -/
structure ClientConnectEnv where
  keyFetch : FetchOutcome
  rtc : RTCConnectEnv

/-- The result of RealtimeClient.connect: the resulting client state, the
number of credential GETs issued, and the outcome. -/
structure ConnectOutcome where
  state : ClientState
  fetchCalls : Nat
  result : Except String Unit

/-- The tail of RealtimeClient.connect once a truthy ephemeral key is
held (src/lib/client.js lines 224-233): delegate to the transport connect
with the current session configuration, then on success send the session
configuration via updateSession(). -/
def clientConnectWithKey (st : ClientState) (env : ClientConnectEnv)
    (fetches : Nat) : ConnectOutcome :=
  let r := rtcConnect st.rtc st.sessionConfig env.rtc
  let st := { st with rtc := r.1 }
  match r.2.2 with
  | .error m => ⟨st, fetches, .error m⟩
  | .ok _ => ⟨updateSession st {}, fetches, .ok ()⟩

/-- RealtimeClient.connect for the webrtc transport (src/lib/client.js
lines 192-234): fail fast when already connected; when no truthy
credential is stored but a fetch URL is configured, resolve the
credential with a single GET (a failure there aborts the call); an absent
credential without a URL is a synchronous error; otherwise hand over to
the transport. -/
def clientConnect (st : ClientState) (env : ClientConnectEnv) :
    ConnectOutcome :=
  if rtcIsConnected st.rtc then
    ⟨st, 0, .error "Already connected, use .disconnect() first"⟩
  else
    let keyTruthy :=
      match st.ephemeralKey with
      | some v => v.truthy
      | none => false
    if !keyTruthy && st.fetchEphemeralKeyUrl.isSome then
      match fetchEphemeralKey env.keyFetch with
      | .error m => ⟨st, 1, .error m⟩
      | .ok v => clientConnectWithKey { st with ephemeralKey := some v } env 1
    else if !keyTruthy then
      ⟨st, 0, .error "Ephemeral key is required for WebRTC transport"⟩
    else
      clientConnectWithKey st env 0

/-- A completed function call as handed to callTool
(item.formatted.tool): the tool name, the call id, and the outcome
JSON.parse has on its argument string. -/
structure ToolCall where
  name : String
  call_id : String
  argumentsParse : Except String JValue

/-- The try-block of callTool (src/lib/client.js lines 104-110): parse
the argument string, look up the handler by name (an unregistered name
throws), then run the handler. -/
def callToolAttempt (st : ClientState) (tool : ToolCall) :
    Except String JValue :=
  match tool.argumentsParse with
  | .error m => .error m
  | .ok args =>
      match st.tools.lookup tool.name with
      | none => .error ("Tool \"" ++ tool.name ++ "\" has not been added")
      | some entry => entry.handler args

/-- The output string callTool sends back: the stringified handler result
on success, the stringified error-message object when anything in the
try-block threw (src/lib/client.js lines 111-126). -/
def callToolOutput (st : ClientState) (tool : ToolCall) : String :=
  match callToolAttempt st tool with
  | .ok result => jsonStringify result
  | .error m => jsonStringify (.obj [("error", .str m)])

/-- The function_call_output item payload callTool sends
(src/lib/client.js lines 112-116 and 120-124). -/
def functionCallOutputItem (call_id output : String) : JValue :=
  .obj [("type", .str "function_call_output"),
        ("call_id", .str call_id),
        ("output", .str output)]

/-- Modelled from the spec: RealtimeClient.createResponse is called by
callTool (src/lib/client.js line 127) but its definition is not among the
sources; per spec section 4.4 tool invocation then requests a new
response from the peer, i.e. sends a response.create event. -/
def createResponse (st : ClientState) : ClientState :=
  { st with sent := st.sent ++ [SentEvent.responseCreate] }

/-- callTool (src/lib/client.js lines 103-128): every failure of the
try-block is caught and converted into a function_call_output error
payload; in the success and failure case alike the item is sent and a new
response is requested.  Total: no failure propagates to the caller. -/
def callTool (st : ClientState) (tool : ToolCall) : ClientState :=
  createResponse
    { st with sent := st.sent ++
        [SentEvent.conversationItemCreate
          (functionCallOutputItem tool.call_id (callToolOutput st tool))] }

/-- A concrete handler used in instantiations: resolves to null for every
argument. -/
def nullHandler : ToolHandler := fun _ => .ok .null

/-- A concrete handler used in instantiations: throws for every
argument. -/
def failingHandler : ToolHandler := fun _ => .error "boom"

/-- A freshly constructed client whose transport reports connected with an
open data channel, used to instantiate connected-state theorems. -/
def connClient : ClientState :=
  { ClientState.fresh none none with
    rtc := { pc := some ⟨"connected"⟩, dc := some ⟨"open"⟩,
             audioStream := none, audioElement := false } }


/-- C1.  updateSession is a sparse merge: after a call, every field present
in the argument holds the supplied value and every absent field is
unchanged; consequently updateSession(voice x) followed by
updateSession(instructions y) leaves voice at x. -/
theorem updateSession_sparse_merge :
    (∀ (c : SessionConfig) (p : SessionDelta) (f : SField),
      (mergeSession c p).field f = (p.field f).getD (c.field f)) ∧
    (∀ (c : SessionConfig) (x y : String),
      (mergeSession (mergeSession c { voice := some x })
        { instructions := some y }).voice = x) := by
  constructor
  · intro c p f
    cases f <;> rfl
  · intro c x y
    rfl

/-- C5.  On a connected transport, send builds the wire event with the
generated event_id, the type, and the spread payload, dispatches it as
client.<type> and client.*, and writes exactly one complete serialized
message to the data channel; in particular send of foo with a = 1 produces
the event with fields event_id, type = foo, a = 1.  While not connected,
send raises a synchronous transport error. -/
theorem rtcSend_dispatch_and_write :
    (∀ (st : RTCState) (name : String) (fields : List (String × JValue))
        (eid : String),
      rtcIsConnected st = true →
      rtcSend st name (.obj fields) eid =
        .ok { dispatches :=
                [("client." ++ name, sendEventValue name (.obj fields) eid),
                 ("client.*", sendEventValue name (.obj fields) eid)]
              writes := [jsonStringify (sendEventValue name (.obj fields) eid)] }) ∧
    (sendEventValue "foo" (.obj [("a", .num 1)]) "evt_001" =
      .obj [("event_id", .str "evt_001"), ("type", .str "foo"),
        ("a", .num 1)]) ∧
    (∀ (st : RTCState) (name : String) (data : JValue) (eid : String),
      rtcIsConnected st = false →
      rtcSend st name data eid = .error "RealtimeWebRTC is not connected") := by
  refine ⟨?_, ?_, ?_⟩
  · intro st name fields eid h
    simp [rtcSend, h, jsTypeofNotObject]
  · rfl
  · intro st name data eid h
    simp [rtcSend, h]

/-- Witness for C5: both branches of the theorem applied at concrete
inputs (a fully connected transport state, and the initial disconnected
one). -/
theorem rtcSend_dispatch_and_write_witness :
    rtcSend ⟨some ⟨"connected"⟩, some ⟨"open"⟩, none, false⟩ "foo"
        (.obj [("a", .num 1)]) "evt_001" =
      .ok { dispatches :=
              [("client." ++ "foo",
                sendEventValue "foo" (.obj [("a", .num 1)]) "evt_001"),
               ("client.*",
                sendEventValue "foo" (.obj [("a", .num 1)]) "evt_001")]
            writes :=
              [jsonStringify (sendEventValue "foo" (.obj [("a", .num 1)])
                "evt_001")] } ∧
    rtcSend RTCState.init "bar" (.obj []) "evt_002" =
      .error "RealtimeWebRTC is not connected" :=
  ⟨rtcSend_dispatch_and_write.1 _ "foo" [("a", .num 1)] "evt_001" rfl,
   rtcSend_dispatch_and_write.2.2 RTCState.init "bar" (.obj []) "evt_002" rfl⟩

/-- C6.  Every inbound frame that parses as JSON is dispatched under
server.<type> and server.* with the parsed payload, and leaves the
transport state untouched; a frame whose parse fails is dispatched as a
local error event describing the malformed message, again leaving the
state (and hence the open connection) untouched.  The concrete frame with
type bar and x = 1 goes out as server.bar. -/
theorem dcOnMessage_dispatch :
    (∀ (st : RTCState) (message : JValue),
      dcOnMessage st (.ok message) =
        (st, [(serverEventName message, message), ("server.*", message)])) ∧
    (serverEventName (.obj [("type", .str "bar"), ("x", .num 1)]) =
      "server.bar") ∧
    (∀ (st : RTCState) (errMsg : String),
      dcOnMessage st (.error errMsg) =
        (st, [("error", invalidMessagePayload errMsg)])) :=
  ⟨fun _ _ => rfl, rfl, fun _ _ => rfl⟩

/-- C3 (code bug).  A WebRTC connect attempt that fails — offer/answer
POST rejected with a non-success status, negotiation timeout, or the
connection state reaching failed — reports the failure while the peer
connection, data channel and captured audio stream handles all remain
held: nothing is released on the failure paths.  Evaluated at the
concrete failing inputs. -/
theorem rtcConnect_failed_attempt_leaks_handles :
    (rtcConnect RTCState.init defaultSessionConfig
        ⟨.ok ["track0"], false, 401, "Unauthorized", .timeout⟩ =
      ({ pc := some ⟨"new"⟩, dc := some ⟨"connecting"⟩,
         audioStream := some ["track0"], audioElement := false },
       [RTCAction.createPeerConnection, RTCAction.getUserMedia,
        RTCAction.createDataChannel, RTCAction.createOffer,
        RTCAction.postOffer],
       .error "Failed to connect: 401 Unauthorized")) ∧
    (rtcConnect RTCState.init defaultSessionConfig
        ⟨.ok ["track0"], true, 200, "OK", .timeout⟩ =
      ({ pc := some ⟨"new"⟩, dc := some ⟨"connecting"⟩,
         audioStream := some ["track0"], audioElement := false },
       [RTCAction.createPeerConnection, RTCAction.getUserMedia,
        RTCAction.createDataChannel, RTCAction.createOffer,
        RTCAction.postOffer],
       .error "Connection timeout")) ∧
    (rtcConnect RTCState.init defaultSessionConfig
        ⟨.ok ["track0"], true, 200, "OK", .failed⟩ =
      ({ pc := some ⟨"failed"⟩, dc := some ⟨"connecting"⟩,
         audioStream := some ["track0"], audioElement := false },
       [RTCAction.createPeerConnection, RTCAction.getUserMedia,
        RTCAction.createDataChannel, RTCAction.createOffer,
        RTCAction.postOffer],
       .error "Connection failed")) := by
  refine ⟨rfl, rfl, rfl⟩

/-- C10.  When audio is among the session modalities, a connect attempt
validates the effective input format, output format and voice against the
fixed allow-lists before requesting the microphone or starting
negotiation: an invalid value stops the attempt with an Invalid ... error
while the action trace holds only the peer-connection creation.  Without
the audio modality the validation is skipped entirely: the attempt does
not depend on the voice or format fields at all. -/
theorem rtcConnect_audio_validation :
    (∀ (st : RTCState) (cfg : SessionConfig) (env : RTCConnectEnv),
      rtcIsConnected st = false →
      cfg.modalities.contains "audio" = true →
      validInputFormats.contains (jsOrDefault cfg.input_audio_format "pcm16")
        = false →
      rtcConnect st cfg env =
        ({ st with pc := some ⟨"new"⟩ }, [RTCAction.createPeerConnection],
         .error ("Invalid input_audio_format: " ++
           jsOrDefault cfg.input_audio_format "pcm16"))) ∧
    (∀ (st : RTCState) (cfg : SessionConfig) (env : RTCConnectEnv),
      rtcIsConnected st = false →
      cfg.modalities.contains "audio" = true →
      validInputFormats.contains (jsOrDefault cfg.input_audio_format "pcm16")
        = true →
      validOutputFormats.contains (jsOrDefault cfg.output_audio_format "pcm16")
        = false →
      rtcConnect st cfg env =
        ({ st with pc := some ⟨"new"⟩ }, [RTCAction.createPeerConnection],
         .error ("Invalid output_audio_format: " ++
           jsOrDefault cfg.output_audio_format "pcm16"))) ∧
    (∀ (st : RTCState) (cfg : SessionConfig) (env : RTCConnectEnv),
      rtcIsConnected st = false →
      cfg.modalities.contains "audio" = true →
      validInputFormats.contains (jsOrDefault cfg.input_audio_format "pcm16")
        = true →
      validOutputFormats.contains (jsOrDefault cfg.output_audio_format "pcm16")
        = true →
      validVoices.contains (jsOrDefault cfg.voice "verse") = false →
      rtcConnect st cfg env =
        ({ st with pc := some ⟨"new"⟩ }, [RTCAction.createPeerConnection],
         .error ("Invalid voice: " ++ jsOrDefault cfg.voice "verse"))) ∧
    (∀ (st : RTCState) (cfg : SessionConfig) (env : RTCConnectEnv)
        (v f g : String),
      cfg.modalities.contains "audio" = false →
      rtcConnect st cfg env =
        rtcConnect st
          { cfg with
            voice := v
            input_audio_format := f
            output_audio_format := g } env) := by
  refine ⟨?_, ?_, ?_, ?_⟩
  · intro st cfg env h1 h2 h3
    have h2m : "audio" ∈ cfg.modalities := by simpa using h2
    have h3m : jsOrDefault cfg.input_audio_format "pcm16" ∉ validInputFormats := by
      simpa using h3
    simp [rtcConnect, h1, h2m, h3m]
  · intro st cfg env h1 h2 h3 h4
    have h2m : "audio" ∈ cfg.modalities := by simpa using h2
    have h3m : jsOrDefault cfg.input_audio_format "pcm16" ∈ validInputFormats := by
      simpa using h3
    have h4m : jsOrDefault cfg.output_audio_format "pcm16" ∉ validOutputFormats := by
      simpa using h4
    simp [rtcConnect, h1, h2m, h3m, h4m]
  · intro st cfg env h1 h2 h3 h4 h5
    have h2m : "audio" ∈ cfg.modalities := by simpa using h2
    have h3m : jsOrDefault cfg.input_audio_format "pcm16" ∈ validInputFormats := by
      simpa using h3
    have h4m : jsOrDefault cfg.output_audio_format "pcm16" ∈ validOutputFormats := by
      simpa using h4
    have h5m : jsOrDefault cfg.voice "verse" ∉ validVoices := by simpa using h5
    simp [rtcConnect, h1, h2m, h3m, h4m, h5m]
  · intro st cfg env v f g h
    have hm : "audio" ∉ cfg.modalities := by simpa using h
    simp [rtcConnect, hm]

/-- Witness for C10: all four branches of the theorem applied at concrete
inputs — an unsupported input format, an unsupported output format, an
unsupported voice, and a text-only modality list whose connect result
ignores an invalid voice. -/
theorem rtcConnect_audio_validation_witness :
    (rtcConnect RTCState.init
        { defaultSessionConfig with input_audio_format := "mp3" }
        ⟨.ok ["track0"], true, 200, "OK", .connected⟩ =
      ({ RTCState.init with pc := some ⟨"new"⟩ },
       [RTCAction.createPeerConnection],
       .error ("Invalid input_audio_format: " ++
         jsOrDefault ({ defaultSessionConfig with
           input_audio_format := "mp3" } : SessionConfig).input_audio_format
           "pcm16"))) ∧
    (rtcConnect RTCState.init
        { defaultSessionConfig with output_audio_format := "opus" }
        ⟨.ok ["track0"], true, 200, "OK", .connected⟩ =
      ({ RTCState.init with pc := some ⟨"new"⟩ },
       [RTCAction.createPeerConnection],
       .error ("Invalid output_audio_format: " ++
         jsOrDefault ({ defaultSessionConfig with
           output_audio_format := "opus" } : SessionConfig).output_audio_format
           "pcm16"))) ∧
    (rtcConnect RTCState.init { defaultSessionConfig with voice := "bob" }
        ⟨.ok ["track0"], true, 200, "OK", .connected⟩ =
      ({ RTCState.init with pc := some ⟨"new"⟩ },
       [RTCAction.createPeerConnection],
       .error ("Invalid voice: " ++
         jsOrDefault ({ defaultSessionConfig with
           voice := "bob" } : SessionConfig).voice "verse"))) ∧
    (rtcConnect RTCState.init
        { defaultSessionConfig with
          modalities := ["text"]
          voice := "bob" }
        ⟨.ok ["track0"], true, 200, "OK", .connected⟩ =
      rtcConnect RTCState.init
        { ({ defaultSessionConfig with
            modalities := ["text"]
            voice := "bob" } : SessionConfig) with
          voice := "carol"
          input_audio_format := "mp3"
          output_audio_format := "mp3" }
        ⟨.ok ["track0"], true, 200, "OK", .connected⟩) :=
  ⟨rtcConnect_audio_validation.1 _ _ _ rfl rfl rfl,
   rtcConnect_audio_validation.2.1 _ _ _ rfl rfl rfl rfl,
   rtcConnect_audio_validation.2.2.1 _ _ _ rfl rfl rfl rfl rfl,
   rtcConnect_audio_validation.2.2.2 _ _ _ "carol" "mp3" "mp3" rfl⟩

theorem mergeSession_empty (c : SessionConfig) : mergeSession c {} = c := rfl

theorem rtcIsConnected_rtcDisconnect (st : RTCState) :
    rtcIsConnected (rtcDisconnect st) = false := by
  obtain ⟨pc, dc, a, e⟩ := st
  cases pc <;> cases dc <;> cases a <;> cases e <;>
    simp [rtcDisconnect, rtcIsConnected]

/-- C7.  disconnect is idempotent: a second disconnect leaves the state of
the first one and cannot throw (the model is a total function, as is the
source method); after any disconnect the conversation store is empty, the
session-created flag is cleared, and isConnected reports false. -/
theorem disconnect_idempotent :
    ∀ st : ClientState,
      clientDisconnect (clientDisconnect st) = clientDisconnect st ∧
      (clientDisconnect st).conversation.items = [] ∧
      (clientDisconnect st).sessionCreated = false ∧
      clientIsConnected (clientDisconnect st) = false := by
  intro st
  by_cases h : rtcIsConnected st.rtc <;>
    simp [clientDisconnect, clientIsConnected, h,
      RealtimeConversation.clear, rtcIsConnected_rtcDisconnect]

/-- C9.  disconnect leaves the session configuration, the tool registry
and the registered handlers (application bus and transport bus alike)
unchanged, touching only the session-created flag, the transport and the
conversation store; reset is the operation that restores the default
configuration and empties the registry (and handler sets). -/
theorem disconnect_frame_reset_restores :
    ∀ st : ClientState,
      (clientDisconnect st).sessionConfig = st.sessionConfig ∧
      (clientDisconnect st).tools = st.tools ∧
      (clientDisconnect st).appHandlers = st.appHandlers ∧
      (clientDisconnect st).apiHandlers = st.apiHandlers ∧
      (clientDisconnect st).sessionCreated = false ∧
      (clientDisconnect st).conversation = st.conversation.clear ∧
      (clientReset st).sessionConfig = defaultSessionConfig ∧
      (clientReset st).tools = [] ∧
      (clientReset st).appHandlers = [] ∧
      (clientReset st).apiHandlers = apiHandlerEvents := by
  intro st
  by_cases h : rtcIsConnected st.rtc <;>
    simp [clientDisconnect, clientReset, resetConfig, h]

/-- C2 counterexample.  On a connected fresh client, addTool succeeds and
registers the tool, and it does trigger a session.update send — but the
advertised session carries the unchanged default configuration, whose
tools list is empty: the newly registered tool is not included in the
tool list sent to the peer. -/
theorem addTool_not_advertised_counterexample :
    (addTool connClient ⟨"get_weather", []⟩ (some nullHandler)).2 =
      .ok ⟨⟨"get_weather", []⟩, nullHandler⟩ ∧
    (addTool connClient ⟨"get_weather", []⟩
        (some nullHandler)).1.tools.lookup "get_weather" =
      some ⟨⟨"get_weather", []⟩, nullHandler⟩ ∧
    (addTool connClient ⟨"get_weather", []⟩ (some nullHandler)).1.sent =
      [SentEvent.sessionUpdate defaultSessionConfig] ∧
    defaultSessionConfig.tools = [] := by
  refine ⟨rfl, rfl, rfl, rfl⟩

/-- C2 (amended).  A successful addTool on a connected client triggers
exactly one session.update send, whose payload is the current session
configuration — its advertised tools field is sessionConfig.tools, which
addTool leaves unchanged, so the new registry entry is not reflected in
it; addTool with an already-registered name fails with the
already-added error and leaves the whole state, registry included,
unchanged. -/
theorem addTool_resync_spec :
    (∀ (st : ClientState) (d : ToolDefinition) (hd : ToolHandler),
      rtcIsConnected st.rtc = true →
      d.name ≠ "" →
      st.tools.lookup d.name = none →
      addTool st d (some hd) =
        ({ st with
            tools := st.tools ++ [(d.name, ⟨d, hd⟩)]
            sent := st.sent ++ [SentEvent.sessionUpdate st.sessionConfig] },
         .ok ⟨d, hd⟩)) ∧
    (∀ (st : ClientState) (d : ToolDefinition) (h : Option ToolHandler)
        (e : ToolEntry),
      d.name ≠ "" →
      st.tools.lookup d.name = some e →
      addTool st d h =
        (st, .error ("Tool \"" ++ d.name ++ "\" already added. " ++
          "Please use .removeTool(\"" ++ d.name ++
          "\") before trying to add again."))) := by
  constructor
  · intro st d hd hconn hname hlookup
    simp [addTool, updateSession, hconn, hname, hlookup, mergeSession_empty]
  · intro st d h e hname hlookup
    simp [addTool, hname, hlookup]

/-- Witness for C2: both branches of the amended theorem at concrete
inputs — a successful registration on the connected fresh client, then a
duplicate registration of the same name failing. -/
theorem addTool_resync_spec_witness :
    addTool connClient ⟨"lookup_weather", []⟩ (some nullHandler) =
      ({ connClient with
          tools := connClient.tools ++
            [("lookup_weather", ⟨⟨"lookup_weather", []⟩, nullHandler⟩)]
          sent := connClient.sent ++
            [SentEvent.sessionUpdate connClient.sessionConfig] },
       .ok ⟨⟨"lookup_weather", []⟩, nullHandler⟩) ∧
    addTool
        (addTool connClient ⟨"lookup_weather", []⟩ (some nullHandler)).1
        ⟨"lookup_weather", []⟩ (some nullHandler) =
      ((addTool connClient ⟨"lookup_weather", []⟩ (some nullHandler)).1,
       .error ("Tool \"" ++ "lookup_weather" ++ "\" already added. " ++
         "Please use .removeTool(\"" ++ "lookup_weather" ++
         "\") before trying to add again.")) :=
  ⟨addTool_resync_spec.1 connClient ⟨"lookup_weather", []⟩ nullHandler rfl
      (by decide) rfl,
   addTool_resync_spec.2
      (addTool connClient ⟨"lookup_weather", []⟩ (some nullHandler)).1
      ⟨"lookup_weather", []⟩ (some nullHandler)
      ⟨⟨"lookup_weather", []⟩, nullHandler⟩ (by decide) rfl⟩

theorem clientConnectWithKey_fetchCalls (st : ClientState)
    (env : ClientConnectEnv) (n : Nat) :
    (clientConnectWithKey st env n).fetchCalls = n := by
  simp only [clientConnectWithKey]
  split <;> rfl

/-- C4.  A connect call on a webrtc client with a fetch URL and no stored
credential issues a single GET, never retried: when the endpoint answers
with a body lacking a truthy ephemeral_key field the call fails with the
missing-credential-field error leaving the state (hence isConnected =
false) untouched; a network-level fetch failure produces a different,
wrapped message, as does a non-success status; and no execution of
connect ever issues more than one GET. -/
theorem connect_credential_resolution :
    (∀ (st : ClientState) (env : ClientConnectEnv),
      rtcIsConnected st.rtc = false →
      st.ephemeralKey = none →
      st.fetchEphemeralKeyUrl.isSome = true →
      env.keyFetch = .response true 200 "OK"
        (.ok (.obj [("wrong_field", .str "v")])) →
      clientConnect st env =
        ⟨st, 1, .error ("Failed to fetch ephemeral key: " ++
          "Response missing ephemeral_key field")⟩ ∧
      clientIsConnected (clientConnect st env).state = false) ∧
    (∀ (st : ClientState) (env : ClientConnectEnv) (m : String),
      rtcIsConnected st.rtc = false →
      st.ephemeralKey = none →
      st.fetchEphemeralKeyUrl.isSome = true →
      env.keyFetch = .netError m →
      clientConnect st env =
        ⟨st, 1, .error ("Failed to fetch ephemeral key: " ++ m)⟩) ∧
    (∀ (st : ClientState) (env : ClientConnectEnv)
        (body : Except String JValue),
      rtcIsConnected st.rtc = false →
      st.ephemeralKey = none →
      st.fetchEphemeralKeyUrl.isSome = true →
      env.keyFetch = .response false 401 "Unauthorized" body →
      clientConnect st env =
        ⟨st, 1, .error ("Failed to fetch ephemeral key: " ++
          "Failed to fetch ephemeral key: 401 Unauthorized")⟩) ∧
    (("Failed to fetch ephemeral key: " ++
        "Response missing ephemeral_key field" : String) ≠
      "Failed to fetch ephemeral key: " ++
        "Failed to fetch ephemeral key: 401 Unauthorized") ∧
    (∀ (st : ClientState) (env : ClientConnectEnv),
      (clientConnect st env).fetchCalls ≤ 1) := by
  refine ⟨?_, ?_, ?_, by decide, ?_⟩
  · intro st env hconn hkey hurl hfetch
    constructor
    · simp [clientConnect, hconn, hkey, hurl, hfetch, fetchEphemeralKey,
        JValue.get, List.lookup, JValue.truthy]
    · simp [clientConnect, clientIsConnected, hconn, hkey, hurl, hfetch,
        fetchEphemeralKey, JValue.get, List.lookup, JValue.truthy]
  · intro st env m hconn hkey hurl hfetch
    simp [clientConnect, hconn, hkey, hurl, hfetch, fetchEphemeralKey]
  · intro st env body hconn hkey hurl hfetch
    cases body <;>
      simp [clientConnect, hconn, hkey, hurl, hfetch, fetchEphemeralKey] <;>
      rfl
  · intro st env
    unfold clientConnect
    repeat' split
    all_goals try simp [clientConnectWithKey_fetchCalls]
    all_goals repeat' split
    all_goals simp [clientConnectWithKey_fetchCalls]

/-- Witness for C4: the theorem applied at a concrete fresh client with a
fetch URL, against the wrong-field endpoint, a network failure, and a 401
response. -/
theorem connect_credential_resolution_witness :
    (clientConnect (ClientState.fresh none (some "/api/ephemeral"))
        ⟨.response true 200 "OK" (.ok (.obj [("wrong_field", .str "v")])),
         ⟨.ok [], true, 200, "OK", .connected⟩⟩ =
      ⟨ClientState.fresh none (some "/api/ephemeral"), 1,
       .error ("Failed to fetch ephemeral key: " ++
         "Response missing ephemeral_key field")⟩ ∧
      clientIsConnected (clientConnect
        (ClientState.fresh none (some "/api/ephemeral"))
        ⟨.response true 200 "OK" (.ok (.obj [("wrong_field", .str "v")])),
         ⟨.ok [], true, 200, "OK", .connected⟩⟩).state = false) ∧
    clientConnect (ClientState.fresh none (some "/api/ephemeral"))
        ⟨.netError "fetch failed", ⟨.ok [], true, 200, "OK", .connected⟩⟩ =
      ⟨ClientState.fresh none (some "/api/ephemeral"), 1,
       .error ("Failed to fetch ephemeral key: " ++ "fetch failed")⟩ ∧
    clientConnect (ClientState.fresh none (some "/api/ephemeral"))
        ⟨.response false 401 "Unauthorized" (.error "not json"),
         ⟨.ok [], true, 200, "OK", .connected⟩⟩ =
      ⟨ClientState.fresh none (some "/api/ephemeral"), 1,
       .error ("Failed to fetch ephemeral key: " ++
         "Failed to fetch ephemeral key: 401 Unauthorized")⟩ :=
  ⟨connect_credential_resolution.1 _ _ rfl rfl rfl rfl,
   connect_credential_resolution.2.1 _ _ "fetch failed" rfl rfl rfl rfl,
   connect_credential_resolution.2.2.1 _ _ (.error "not json")
     rfl rfl rfl rfl⟩

/-- C8.  Tool invocation sends, for every completed function call, exactly
one function_call_output item followed by one response.create request —
in the success and failure case alike, and as a total function it never
propagates a failure to the caller; the output is the stringified handler
result on success, and the stringified error-message object when the
argument string fails to parse, when the name is unregistered, or when
the handler throws. -/
theorem callTool_error_containment :
    (∀ (st : ClientState) (tool : ToolCall),
      (callTool st tool).sent = st.sent ++
        [SentEvent.conversationItemCreate
          (functionCallOutputItem tool.call_id (callToolOutput st tool)),
         SentEvent.responseCreate]) ∧
    (∀ (st : ClientState) (tool : ToolCall) (m : String),
      tool.argumentsParse = .error m →
      callToolOutput st tool =
        jsonStringify (.obj [("error", .str m)])) ∧
    (∀ (st : ClientState) (tool : ToolCall) (args : JValue),
      tool.argumentsParse = .ok args →
      st.tools.lookup tool.name = none →
      callToolOutput st tool =
        jsonStringify (.obj [("error", .str
          ("Tool \"" ++ tool.name ++ "\" has not been added"))])) ∧
    (∀ (st : ClientState) (tool : ToolCall) (args : JValue)
        (entry : ToolEntry) (m : String),
      tool.argumentsParse = .ok args →
      st.tools.lookup tool.name = some entry →
      entry.handler args = .error m →
      callToolOutput st tool =
        jsonStringify (.obj [("error", .str m)])) ∧
    (∀ (st : ClientState) (tool : ToolCall) (args : JValue)
        (entry : ToolEntry) (v : JValue),
      tool.argumentsParse = .ok args →
      st.tools.lookup tool.name = some entry →
      entry.handler args = .ok v →
      callToolOutput st tool = jsonStringify v) := by
  refine ⟨?_, ?_, ?_, ?_, ?_⟩
  · intro st tool
    simp [callTool, createResponse]
  · intro st tool m hparse
    simp [callToolOutput, callToolAttempt, hparse]
  · intro st tool args hparse hlookup
    simp [callToolOutput, callToolAttempt, hparse, hlookup]
  · intro st tool args entry m hparse hlookup hrun
    simp [callToolOutput, callToolAttempt, hparse, hlookup, hrun]
  · intro st tool args entry v hparse hlookup hrun
    simp [callToolOutput, callToolAttempt, hparse, hlookup, hrun]

/-- Witness for C8: all failure branches and the success branch of the
theorem applied at concrete inputs, on a connected client holding one
failing and one succeeding tool. -/
theorem callTool_error_containment_witness :
    (callTool connClient ⟨"t1", "call_1", .ok .null⟩).sent =
      connClient.sent ++
        [SentEvent.conversationItemCreate
          (functionCallOutputItem "call_1"
            (callToolOutput connClient ⟨"t1", "call_1", .ok .null⟩)),
         SentEvent.responseCreate] ∧
    callToolOutput connClient
        ⟨"t1", "call_1", .error "Unexpected token"⟩ =
      jsonStringify (.obj [("error", .str "Unexpected token")]) ∧
    callToolOutput connClient ⟨"t1", "call_1", .ok .null⟩ =
      jsonStringify (.obj [("error", .str
        ("Tool \"" ++ "t1" ++ "\" has not been added"))]) ∧
    callToolOutput
        { connClient with
          tools := [("t1", ⟨⟨"t1", []⟩, failingHandler⟩),
                    ("t2", ⟨⟨"t2", []⟩, nullHandler⟩)] }
        ⟨"t1", "call_1", .ok .null⟩ =
      jsonStringify (.obj [("error", .str "boom")]) ∧
    callToolOutput
        { connClient with
          tools := [("t1", ⟨⟨"t1", []⟩, failingHandler⟩),
                    ("t2", ⟨⟨"t2", []⟩, nullHandler⟩)] }
        ⟨"t2", "call_2", .ok .null⟩ =
      jsonStringify JValue.null :=
  ⟨callTool_error_containment.1 connClient ⟨"t1", "call_1", .ok .null⟩,
   callTool_error_containment.2.1 connClient
     ⟨"t1", "call_1", .error "Unexpected token"⟩ "Unexpected token" rfl,
   callTool_error_containment.2.2.1 connClient
     ⟨"t1", "call_1", .ok .null⟩ .null rfl rfl,
   callTool_error_containment.2.2.2.1 _ ⟨"t1", "call_1", .ok .null⟩ .null
     ⟨⟨"t1", []⟩, failingHandler⟩ "boom" rfl rfl rfl,
   callTool_error_containment.2.2.2.2 _ ⟨"t2", "call_2", .ok .null⟩ .null
     ⟨⟨"t2", []⟩, nullHandler⟩ .null rfl rfl rfl⟩
